import Mathlib

/-!
Shallow embedding of `backend/app/job_manager.py` (class `JobManager` and
dataclass `JobStatus`) from the Youtube-DLP repository.

Modelling decisions:
* `percent` is a Python float that only ever receives exact decimal values in
  the operations under study; it is embedded as `Rat`.
* The `websockets` list is embedded as a list of abstract subscriber ids
  (`Nat`); `task` as a `Bool` recording whether a task handle has been set;
  `created_at` is irrelevant to the claims and omitted.
* Python's insertion-ordered dict `self.jobs` is embedded as an association
  list with unique keys; assignment replaces in place or appends.
* The S3 refresh hook `S3Uploader().generate_presigned_url_from_key` is a
  parameter `refresh : String → Except String (Option String)`:
  `.error e` embeds a raised exception, `.ok none` a `None` return, and
  `.ok (some u)` a returned string (Python truthiness: used only if `u ≠ ""`).
* `_schedule_notification` is embedded as a total function to an outcome
  type: every exception path in the source is caught (`except RuntimeError`,
  `except Exception ... pass`), so the embedding returning a plain
  `NotifyOutcome` value reflects that it never raises to its caller.
-/

namespace JobManager

/-- Embedding of the `JobStatus` dataclass. -/
structure JobStatus where
  job_id : String
  url : String
  stage : String := "pending"
  percent : Rat := 0
  message : String := ""
  speed : String := ""
  eta : String := ""
  s3_url : Option String := none
  metadata : List (String × String) := []
  websockets : List Nat := []
  cancelled : Bool := false
  task : Bool := false
  deriving Repr, DecidableEq

/-- The jobs registry: an insertion-ordered association list with unique
keys, embedding the Python dict `self.jobs`. -/
abbrev Registry := List (String × JobStatus)

/-- Dict membership / read: `self.jobs.get(job_id)`. -/
def lookupJob : Registry → String → Option JobStatus
  | [], _ => none
  | (k, v) :: rest, id => if k = id then some v else lookupJob rest id

/-- Dict assignment `self.jobs[job_id] = j`: replace in place when the key
exists, append otherwise. -/
def setJob : Registry → String → JobStatus → Registry
  | [], id, j => [(id, j)]
  | (k, v) :: rest, id, j =>
      if k = id then (id, j) :: rest else (k, v) :: setJob rest id j

/-- `metadata.get('s3_key')`: first binding in the association list. -/
def metaGet : List (String × String) → String → Option String
  | [], _ => none
  | (k, v) :: rest, key => if k = key then some v else metaGet rest key

/-- `JobManager.create_job`: unconditionally stores a fresh pending job. -/
def create_job (jobs : Registry) (job_id url : String) : Registry :=
  setJob jobs job_id { job_id := job_id, url := url, stage := "pending" }

/-- Outcome of `_schedule_notification`. -/
inductive NotifyOutcome
  | scheduledOnRunning
  | scheduledOnMain
  | skipped
  deriving Repr, DecidableEq

/-- The event-loop environment visible to `_schedule_notification`:
whether the calling thread has a running loop, whether `set_main_loop`
has stored a loop, whether that loop is running, and whether
`run_coroutine_threadsafe` would raise. -/
structure LoopEnv where
  hasRunningLoop : Bool
  mainLoopSet : Bool
  mainLoopRunning : Bool
  mainScheduleFails : Bool
  deriving Repr, DecidableEq

/-- `JobManager._schedule_notification`. Total: the source catches
`RuntimeError` from `get_running_loop` and any `Exception` from
`run_coroutine_threadsafe`, so no exception escapes to the caller. -/
def schedule_notification (env : LoopEnv) : NotifyOutcome :=
  if env.hasRunningLoop then
    NotifyOutcome.scheduledOnRunning
  else if env.mainLoopSet && env.mainLoopRunning then
    if env.mainScheduleFails then NotifyOutcome.skipped
    else NotifyOutcome.scheduledOnMain
  else
    NotifyOutcome.skipped

/-- `JobManager.update_job_status`: mutates the named fields when the job
exists, then schedules a notification; an unknown `job_id` returns before
the notification step. The second component is `none` when no notification
was attempted. -/
def update_job_status (env : LoopEnv) (jobs : Registry) (job_id stage : String)
    (percent : Rat) (message speed eta : String) :
    Registry × Option NotifyOutcome :=
  match lookupJob jobs job_id with
  | none => (jobs, none)
  | some job =>
      (setJob jobs job_id
        { job with stage := stage, percent := percent, message := message,
                   speed := speed, eta := eta },
       some (schedule_notification env))

/-- `JobManager.set_job_metadata`: replaces the metadata when the job
exists; no notification in the source. -/
def set_job_metadata (jobs : Registry) (job_id : String)
    (metadata : List (String × String)) : Registry :=
  match lookupJob jobs job_id with
  | none => jobs
  | some job => setJob jobs job_id { job with metadata := metadata }

/-- `JobManager.complete_job`: sets stage `complete`, percent 100, the
result url, metadata and message, then notifies; unknown ids return before
the notification step. -/
def complete_job (env : LoopEnv) (jobs : Registry) (job_id s3_url : String)
    (metadata : List (String × String)) : Registry × Option NotifyOutcome :=
  match lookupJob jobs job_id with
  | none => (jobs, none)
  | some job =>
      (setJob jobs job_id
        { job with stage := "complete", percent := 100, s3_url := some s3_url,
                   metadata := metadata, message := "Upload complete!" },
       some (schedule_notification env))

/-- The stages `cancel_job` treats as terminal. -/
def terminalStages : List String := ["complete", "error", "cancelled"]

/-- `JobManager.cancel_job`: returns `false` for unknown or terminal-stage
jobs; otherwise sets the `cancelled` flag, moves the stage to `cancelled`,
notifies and returns `true`. -/
def cancel_job (env : LoopEnv) (jobs : Registry) (job_id : String) :
    Bool × Registry × Option NotifyOutcome :=
  match lookupJob jobs job_id with
  | none => (false, jobs, none)
  | some job =>
      if job.stage ∈ terminalStages then
        (false, jobs, none)
      else
        (true,
         setJob jobs job_id
           { job with cancelled := true, stage := "cancelled",
                      message := "Download cancelled by user" },
         some (schedule_notification env))

/-- `JobManager.set_job_task`. -/
def set_job_task (jobs : Registry) (job_id : String) (task : Bool) :
    Registry :=
  match lookupJob jobs job_id with
  | none => jobs
  | some job => setJob jobs job_id { job with task := task }

/-- `JobManager.is_cancelled`: unknown jobs count as cancelled. -/
def is_cancelled (jobs : Registry) (job_id : String) : Bool :=
  match lookupJob jobs job_id with
  | none => true
  | some job => job.cancelled

/-- `JobManager.register_websocket`. -/
def register_websocket (jobs : Registry) (job_id : String) (ws : Nat) :
    Registry :=
  match lookupJob jobs job_id with
  | none => jobs
  | some job => setJob jobs job_id { job with websockets := job.websockets ++ [ws] }

/-- `JobManager.unregister_websocket`: removes the first occurrence, a
missing element is ignored (`except ValueError: pass`). -/
def unregister_websocket (jobs : Registry) (job_id : String) (ws : Nat) :
    Registry :=
  match lookupJob jobs job_id with
  | none => jobs
  | some job => setJob jobs job_id { job with websockets := job.websockets.erase ws }

/-- `JobManager.cleanup_all_jobs`: `self.jobs.clear()`. -/
def cleanup_all_jobs (_jobs : Registry) : Registry := []

/-- The snapshot dict returned by `get_job_status`. -/
structure Snapshot where
  jobId : String
  stage : String
  percent : Rat
  message : String
  speed : String
  eta : String
  s3_url : Option String
  metadata : List (String × String)
  url : String
  deriving Repr, DecidableEq

/-- The fresh-or-fallback result reference computed inside
`get_job_status`: when the metadata is non-empty and holds a truthy
`s3_key`, try the refresh hook; a raised exception (`.error`), a `None`
return (`.ok none`) or a falsy string keeps the stored url. -/
def refreshedUrl (refresh : String → Except String (Option String))
    (job : JobStatus) : Option String :=
  if job.metadata ≠ [] then
    match metaGet job.metadata "s3_key" with
    | some k =>
        if k ≠ "" then
          match refresh k with
          | Except.ok (some u) => if u ≠ "" then some u else job.s3_url
          | Except.ok none => job.s3_url
          | Except.error _ => job.s3_url
        else job.s3_url
    | none => job.s3_url
  else job.s3_url

/-- `JobManager.get_job_status`: `none` for unknown ids, otherwise a
snapshot of all fields with the result reference recomputed by
`refreshedUrl`. -/
def get_job_status (refresh : String → Except String (Option String))
    (jobs : Registry) (job_id : String) : Option Snapshot :=
  match lookupJob jobs job_id with
  | none => none
  | some job =>
      some { jobId := job.job_id, stage := job.stage, percent := job.percent,
             message := job.message, speed := job.speed, eta := job.eta,
             s3_url := refreshedUrl refresh job, metadata := job.metadata,
             url := job.url }

/-! ## Lock-discipline skeleton

The source guards the registry with a single `threading.Lock`
(`self._lock`).  For the concurrency claim we abstract each operation to
its sequence of lock and I/O events, read off the `with self._lock:`
blocks of the source. -/

/-- Atomic events relevant to the lock discipline: lock transitions, the
presigned-URL refresh I/O, per-subscriber sends, and reads of a Job
record's fields. -/
inductive LockEvent
  | acquire
  | release
  | refreshIO
  | wsSend
  | fieldRead
  deriving Repr, DecidableEq

/-- Event skeleton of `get_job_status` on an existing job: the whole body,
including the presigned-URL regeneration when a truthy `s3_key` is
present, runs inside `with self._lock:`. -/
def get_job_status_events (hasKey : Bool) : List LockEvent :=
  [LockEvent.acquire] ++
    (if hasKey then [LockEvent.refreshIO] else []) ++
    [LockEvent.release]

/-- Event skeleton of `_notify_websockets` on an existing job with `n`
subscribers: it first reads `self.jobs[job_id]` without acquiring the
lock (and later iterates that record's `websockets` list, equally
unguarded — embedded as the leading `fieldRead`), then calls
`get_job_status` (which acquires and releases the lock), then performs
the per-subscriber `ws.send_json` calls outside any lock. -/
def notify_websockets_events (hasKey : Bool) (n : Nat) : List LockEvent :=
  [LockEvent.fieldRead] ++ get_job_status_events hasKey ++
    List.replicate n LockEvent.wsSend

/-- The non-lock events of a trace that occur while the lock is held
(depth `d` of nested acquisitions is positive). -/
def eventsUnderLock : List LockEvent → Nat → List LockEvent
  | [], _ => []
  | LockEvent.acquire :: es, d => eventsUnderLock es (d + 1)
  | LockEvent.release :: es, d => eventsUnderLock es (d - 1)
  | e :: es, d =>
      (if 0 < d then [e] else []) ++ eventsUnderLock es d

/-! ## Operation traces

A small language of registry operations, for trace-level claims.  The
events of `_notify_websockets` do not change any claim-relevant field, so
the trace semantics applies only the registry transformer of each
operation; the environment argument is irrelevant to the registry result
and fixed to a worker-thread environment. -/

/-- One call into the `JobManager` API. -/
inductive Op
  | create (job_id url : String)
  | update (job_id stage : String) (percent : Rat) (message speed eta : String)
  | setMeta (job_id : String) (metadata : List (String × String))
  | complete (job_id s3_url : String) (metadata : List (String × String))
  | cancel (job_id : String)
  | setTask (job_id : String) (task : Bool)
  | regWs (job_id : String) (ws : Nat)
  | unregWs (job_id : String) (ws : Nat)
  | cleanup
  deriving Repr, DecidableEq

/-- A worker-thread environment with no main loop stored. -/
def workerEnv : LoopEnv :=
  { hasRunningLoop := false, mainLoopSet := false,
    mainLoopRunning := false, mainScheduleFails := false }

/-- Registry effect of one operation. -/
def applyOp (jobs : Registry) : Op → Registry
  | Op.create id url => create_job jobs id url
  | Op.update id st p m sp e => (update_job_status workerEnv jobs id st p m sp e).1
  | Op.setMeta id m => set_job_metadata jobs id m
  | Op.complete id u m => (complete_job workerEnv jobs id u m).1
  | Op.cancel id => (cancel_job workerEnv jobs id).2.1
  | Op.setTask id t => set_job_task jobs id t
  | Op.regWs id ws => register_websocket jobs id ws
  | Op.unregWs id ws => unregister_websocket jobs id ws
  | Op.cleanup => cleanup_all_jobs jobs

/-- Registry effect of a sequence of operations, applied left to right. -/
def applyOps (jobs : Registry) : List Op → Registry
  | [] => jobs
  | op :: ops => applyOps (applyOp jobs op) ops

/-- Whether an operation is `create` on the given job id. -/
def Op.isCreateOf (op : Op) (job_id : String) : Bool :=
  match op with
  | Op.create id _ => id = job_id
  | _ => false

/-! ## Helper lemmas about the registry -/

/-- Reading back the key just written. -/
theorem lookup_set_self (jobs : Registry) (id : String) (j : JobStatus) :
    lookupJob (setJob jobs id j) id = some j := by
  induction jobs with
  | nil => simp [setJob, lookupJob]
  | cons hd tl ih =>
      obtain ⟨k, v⟩ := hd
      by_cases h : k = id
      · simp [setJob, h, lookupJob]
      · simp [setJob, h, lookupJob, ih]

/-- Writing one key leaves every other key unchanged. -/
theorem lookup_set_other (jobs : Registry) (id k : String) (j : JobStatus)
    (h : k ≠ id) : lookupJob (setJob jobs id j) k = lookupJob jobs k := by
  induction jobs with
  | nil => simp [setJob, lookupJob, Ne.symm h]
  | cons hd tl ih =>
      obtain ⟨k', v⟩ := hd
      by_cases h' : k' = id
      · subst h'
        simp [setJob, lookupJob, Ne.symm h]
      · simp only [setJob, if_neg h']
        by_cases h'' : k' = k
        · simp [lookupJob, h'']
        · simp [lookupJob, h'', ih]

/-- A successful metadata lookup forces the metadata to be non-empty. -/
theorem metaGet_ne_nil {m : List (String × String)} {key v : String}
    (h : metaGet m key = some v) : m ≠ [] := by
  intro hnil
  subst hnil
  simp [metaGet] at h

/-- Setting a key whose new record keeps the `cancelled` flag (whenever
the written key is the observed one) preserves `is_cancelled`. -/
theorem is_cancelled_set (jobs : Registry) (id tgt : String) (j' : JobStatus)
    (hc : is_cancelled jobs id = true)
    (hj : tgt = id → j'.cancelled = true) :
    is_cancelled (setJob jobs tgt j') id = true := by
  unfold is_cancelled at *
  by_cases h : tgt = id
  · subst h
    rw [lookup_set_self]
    exact hj rfl
  · rw [lookup_set_other _ _ _ _ (fun hh => h hh.symm)]
    exact hc

/-! ## Claim theorems -/

/-- C3 (counterexample): calling `create_job` again with an existing
`job_id` is not a no-op: a job completed with stage `complete`, percent
100 and a result url is replaced by a fresh pending record with percent 0
and no result url. -/
theorem C3_counterexample :
    let s1 := (complete_job workerEnv (create_job [] "j" "u") "j" "ref" [("k", "v")]).1
    let s2 := create_job s1 "j" "u"
    (lookupJob s1 "j").map (fun j => (j.stage, j.percent, j.s3_url)) =
      some ("complete", 100, some "ref") ∧
    (lookupJob s2 "j").map (fun j => (j.stage, j.percent, j.s3_url)) =
      some ("pending", 0, none) :=
  ⟨rfl, rfl⟩

/-- C3 (amended): `create_job` unconditionally stores a fresh pending
record under `job_id`, overwriting any existing job rather than leaving
it unchanged. -/
theorem C3_create_job_overwrites (jobs : Registry) (job_id url : String) :
    lookupJob (create_job jobs job_id url) job_id =
      some { job_id := job_id, url := url, stage := "pending" } :=
  lookup_set_self jobs job_id _

/-- C4: for a `job_id` absent from the registry, `update_job_status`,
`set_job_metadata` and `complete_job` leave the registry unchanged and
attempt no notification (the `none` outcome component), and
`get_job_status` returns `none`. -/
theorem C4_unknown_id_noop (env : LoopEnv)
    (refresh : String → Except String (Option String)) (jobs : Registry)
    (job_id stage : String) (percent : Rat) (message speed eta s3_url : String)
    (metadata : List (String × String))
    (h : lookupJob jobs job_id = none) :
    update_job_status env jobs job_id stage percent message speed eta =
      (jobs, none) ∧
    set_job_metadata jobs job_id metadata = jobs ∧
    complete_job env jobs job_id s3_url metadata = (jobs, none) ∧
    get_job_status refresh jobs job_id = none := by
  simp [update_job_status, set_job_metadata, complete_job, get_job_status, h]

/-- C4 witness at the empty registry. -/
theorem C4_unknown_id_noop_witness :
    update_job_status workerEnv [] "x" "download" 0 "" "" "" = ([], none) ∧
    set_job_metadata [] "x" [] = [] ∧
    complete_job workerEnv [] "x" "ref" [] = ([], none) ∧
    get_job_status (fun _ => Except.ok none) [] "x" = none :=
  C4_unknown_id_noop workerEnv (fun _ => Except.ok none) [] "x" "download" 0
    "" "" "" "ref" [] rfl

/-- C9: `is_cancelled` reports `true` for every `job_id` absent from the
registry, so a stage runner polling a never-created (or cleared) job
observes it as cancelled. -/
theorem C9_unknown_is_cancelled (jobs : Registry) (job_id : String)
    (h : lookupJob jobs job_id = none) :
    is_cancelled jobs job_id = true := by
  simp [is_cancelled, h]

/-- C9 witness at the empty registry. -/
theorem C9_unknown_is_cancelled_witness : is_cancelled [] "x" = true :=
  C9_unknown_is_cancelled [] "x" rfl

/-- C6: on an existing job whose metadata holds a truthy `s3_key`, when
the refresh hook returns a truthy url, `get_job_status` returns the
snapshot of all stored fields with `s3_url` replaced by the freshly
generated url. -/
theorem C6_get_status_refreshes_url
    (refresh : String → Except String (Option String)) (jobs : Registry)
    (job_id k u : String) (j : JobStatus)
    (hj : lookupJob jobs job_id = some j)
    (hk : metaGet j.metadata "s3_key" = some k)
    (hk0 : k ≠ "")
    (hu : refresh k = Except.ok (some u))
    (hu0 : u ≠ "") :
    get_job_status refresh jobs job_id =
      some { jobId := j.job_id, stage := j.stage, percent := j.percent,
             message := j.message, speed := j.speed, eta := j.eta,
             s3_url := some u, metadata := j.metadata, url := j.url } := by
  have hm : j.metadata ≠ [] := metaGet_ne_nil hk
  simp [get_job_status, refreshedUrl, hj, hk, hk0, hu, hu0, hm]

/-- C6 witness: a completed job with metadata `s3_key = key1` and a hook
returning `fresh` yields a snapshot whose `s3_url` is `fresh`, not the
stored `stored-url`. -/
theorem C6_get_status_refreshes_url_witness :
    get_job_status (fun _ => Except.ok (some "fresh"))
      ((complete_job workerEnv (create_job [] "j" "u") "j" "stored-url"
        [("s3_key", "key1")]).1) "j" =
      some { jobId := "j", stage := "complete", percent := 100,
             message := "Upload complete!", speed := "", eta := "",
             s3_url := some "fresh", metadata := [("s3_key", "key1")],
             url := "u" } :=
  C6_get_status_refreshes_url (fun _ => Except.ok (some "fresh"))
    ((complete_job workerEnv (create_job [] "j" "u") "j" "stored-url"
      [("s3_key", "key1")]).1) "j" "key1" "fresh"
    { job_id := "j", url := "u", stage := "complete", percent := 100,
      message := "Upload complete!", s3_url := some "stored-url",
      metadata := [("s3_key", "key1")] }
    rfl rfl (by decide) rfl (by decide)

/-- C10: on an existing job with a stored `s3_key`, when the refresh hook
raises, returns `None`, or returns a falsy url, `get_job_status` does not
propagate the failure: it returns the snapshot with the previously stored
`s3_url` and all other fields unchanged (totality of the embedding
reflects that the source catches every exception of the refresh step). -/
theorem C10_get_status_fallback
    (refresh : String → Except String (Option String)) (jobs : Registry)
    (job_id k : String) (j : JobStatus)
    (hj : lookupJob jobs job_id = some j)
    (hk : metaGet j.metadata "s3_key" = some k)
    (hfail : (∃ e, refresh k = Except.error e) ∨
             refresh k = Except.ok none ∨ refresh k = Except.ok (some "")) :
    get_job_status refresh jobs job_id =
      some { jobId := j.job_id, stage := j.stage, percent := j.percent,
             message := j.message, speed := j.speed, eta := j.eta,
             s3_url := j.s3_url, metadata := j.metadata, url := j.url } := by
  have hm : j.metadata ≠ [] := metaGet_ne_nil hk
  by_cases hk0 : k = ""
  · simp [get_job_status, refreshedUrl, hj, hk, hk0, hm]
  · rcases hfail with ⟨e, he⟩ | he | he <;>
      simp [get_job_status, refreshedUrl, hj, hk, hk0, hm, he]

/-- C10 witness: a raising hook leaves the stored `stored-url` in the
snapshot. -/
theorem C10_get_status_fallback_witness :
    get_job_status (fun _ => Except.error "boom")
      ((complete_job workerEnv (create_job [] "j" "u") "j" "stored-url"
        [("s3_key", "key1")]).1) "j" =
      some { jobId := "j", stage := "complete", percent := 100,
             message := "Upload complete!", speed := "", eta := "",
             s3_url := some "stored-url", metadata := [("s3_key", "key1")],
             url := "u" } :=
  C10_get_status_fallback (fun _ => Except.error "boom")
    ((complete_job workerEnv (create_job [] "j" "u") "j" "stored-url"
      [("s3_key", "key1")]).1) "j" "key1"
    { job_id := "j", url := "u", stage := "complete", percent := 100,
      message := "Upload complete!", s3_url := some "stored-url",
      metadata := [("s3_key", "key1")] }
    rfl rfl (Or.inl ⟨"boom", rfl⟩)

/-- C1 (counterexample): the spec's own scenario fails on the code: after
`create("j2")` and `complete("j2", "ref-1", {"k":"v"})` the job holds
stage `complete` and percent 100, yet the subsequent
`update_status("j2", "upload", 50, "ignored")` changes stage to `upload`
and percent to 50 — terminality is not idempotent. -/
theorem C1_counterexample :
    let s1 := (complete_job workerEnv (create_job [] "j2" "u") "j2" "ref-1"
      [("k", "v")]).1
    let s2 := (update_job_status workerEnv s1 "j2" "upload" 50 "ignored" "" "").1
    (lookupJob s1 "j2").map (fun j => (j.stage, j.percent, j.s3_url)) =
      some ("complete", 100, some "ref-1") ∧
    (lookupJob s2 "j2").map (fun j => (j.stage, j.percent, j.s3_url)) =
      some ("upload", 50, some "ref-1") :=
  ⟨rfl, rfl⟩

/-- C1 (amended): `update_job_status`, `set_job_metadata` and
`complete_job` apply their field mutations unconditionally on every
existing job, including one whose stage is already terminal — no
terminal-stage guard exists in these operations (only `cancel_job`
checks terminality). -/
theorem C1_mutations_unconditional (env : LoopEnv) (jobs : Registry)
    (job_id stage : String) (percent : Rat)
    (message speed eta s3_url : String)
    (metadata meta2 : List (String × String)) (j : JobStatus)
    (hj : lookupJob jobs job_id = some j) :
    lookupJob (update_job_status env jobs job_id stage percent message
        speed eta).1 job_id =
      some { j with stage := stage, percent := percent, message := message,
                    speed := speed, eta := eta } ∧
    lookupJob (set_job_metadata jobs job_id metadata) job_id =
      some { j with metadata := metadata } ∧
    lookupJob (complete_job env jobs job_id s3_url meta2).1 job_id =
      some { j with stage := "complete", percent := 100,
                    s3_url := some s3_url, metadata := meta2,
                    message := "Upload complete!" } := by
  refine ⟨?_, ?_, ?_⟩ <;>
    simp [update_job_status, set_job_metadata, complete_job, hj,
          lookup_set_self]

/-- C1 witness: instantiated at a job already in stage `complete`, whose
fields the three mutators still overwrite. -/
theorem C1_mutations_unconditional_witness :
    lookupJob (update_job_status workerEnv
        [("j", { job_id := "j", url := "u", stage := "complete",
                 percent := 100 })] "j" "upload" 50 "ignored" "" "").1 "j" =
      some { job_id := "j", url := "u", stage := "upload", percent := 50,
             message := "ignored" } ∧
    lookupJob (set_job_metadata
        [("j", { job_id := "j", url := "u", stage := "complete",
                 percent := 100 })] "j" [("m", "1")]) "j" =
      some { job_id := "j", url := "u", stage := "complete", percent := 100,
             metadata := [("m", "1")] } ∧
    lookupJob (complete_job workerEnv
        [("j", { job_id := "j", url := "u", stage := "complete",
                 percent := 100 })] "j" "ref2" []).1 "j" =
      some { job_id := "j", url := "u", stage := "complete", percent := 100,
             s3_url := some "ref2", message := "Upload complete!" } :=
  C1_mutations_unconditional workerEnv
    [("j", { job_id := "j", url := "u", stage := "complete",
             percent := 100 })]
    "j" "upload" 50 "ignored" "" "" "ref2" [("m", "1")] []
    { job_id := "j", url := "u", stage := "complete", percent := 100 } rfl

/-- C2 (counterexample): `cancel_job` can return `true` twice for the
same job: after a successful cancel, `update_job_status` moves the stage
back to `download`, and a second cancel succeeds again — "returns true
exactly once per job" fails. -/
theorem C2_counterexample :
    let r1 := cancel_job workerEnv (create_job [] "j" "u") "j"
    let s2 := (update_job_status workerEnv r1.2.1 "j" "download" 10 "" "" "").1
    let r2 := cancel_job workerEnv s2 "j"
    r1.1 = true ∧ r2.1 = true :=
  ⟨rfl, rfl⟩

/-- C2 (amended): `cancel_job` returns `true` exactly when the job exists
with a non-terminal stage at call time, and an immediately repeated
`cancel_job` (no intervening operation) always returns `false`; the
"exactly once per job" guarantee holds only until another operation
moves the stage out of the terminal set. -/
theorem C2_cancel_characterization (env env2 : LoopEnv) (jobs : Registry)
    (job_id : String) :
    ((cancel_job env jobs job_id).1 = true ↔
      ∃ j, lookupJob jobs job_id = some j ∧ j.stage ∉ terminalStages) ∧
    (cancel_job env2 (cancel_job env jobs job_id).2.1 job_id).1 = false := by
  cases hl : lookupJob jobs job_id with
  | none =>
      constructor
      · simp [cancel_job, hl]
      · simp [cancel_job, hl]
  | some j =>
      by_cases ht : j.stage ∈ terminalStages
      · constructor
        · simp [cancel_job, hl, ht]
        · simp [cancel_job, hl, ht]
      · constructor
        · simp only [cancel_job, hl, if_neg ht]
          exact ⟨fun _ => ⟨j, rfl, ht⟩, fun _ => trivial⟩
        · simp only [cancel_job, hl, if_neg ht]
          simp [cancel_job, lookup_set_self, terminalStages]

/-- C5: for a worker-thread caller (no running loop) with no main-loop
reference set or a non-running main loop, the notification outcome of
`update_job_status` and `complete_job` is `skipped` (never an exception —
the embedding is total because the source catches every exception path),
any notification `cancel_job` attempts is likewise `skipped`, and the
field mutation has still committed: `get_job_status` on the updated
registry reflects the new stage and percent. -/
theorem C5_notification_skipped_mutation_commits (env : LoopEnv)
    (refresh : String → Except String (Option String)) (jobs : Registry)
    (job_id stage : String) (percent : Rat)
    (message speed eta s3_url : String) (metadata : List (String × String))
    (j : JobStatus)
    (henv : env.hasRunningLoop = false)
    (hmain : env.mainLoopSet = false ∨ env.mainLoopRunning = false)
    (hj : lookupJob jobs job_id = some j) :
    (update_job_status env jobs job_id stage percent message speed eta).2 =
      some NotifyOutcome.skipped ∧
    (complete_job env jobs job_id s3_url metadata).2 =
      some NotifyOutcome.skipped ∧
    (∀ o, (cancel_job env jobs job_id).2.2 = some o →
      o = NotifyOutcome.skipped) ∧
    (get_job_status refresh
        (update_job_status env jobs job_id stage percent message speed
          eta).1 job_id).map (fun s => (s.stage, s.percent)) =
      some (stage, percent) := by
  have hsched : schedule_notification env = NotifyOutcome.skipped := by
    rcases hmain with h | h <;> simp [schedule_notification, henv, h]
  refine ⟨?_, ?_, ?_, ?_⟩
  · simp [update_job_status, hj, hsched]
  · simp [complete_job, hj, hsched]
  · intro o ho
    by_cases ht : j.stage ∈ terminalStages <;>
      simp [cancel_job, hj, ht, hsched] at ho
    · exact ho.symm
  · simp [update_job_status, hj, get_job_status, lookup_set_self]

/-- C5 witness: a worker-thread environment with no main loop stored, on
a freshly created job. -/
theorem C5_notification_skipped_mutation_commits_witness :
    (update_job_status workerEnv (create_job [] "j" "u") "j" "download" 25
        "msg" "" "").2 = some NotifyOutcome.skipped ∧
    (complete_job workerEnv (create_job [] "j" "u") "j" "ref" []).2 =
      some NotifyOutcome.skipped ∧
    (∀ o, (cancel_job workerEnv (create_job [] "j" "u") "j").2.2 = some o →
      o = NotifyOutcome.skipped) ∧
    (get_job_status (fun _ => Except.ok none)
        (update_job_status workerEnv (create_job [] "j" "u") "j" "download"
          25 "msg" "" "").1 "j").map (fun s => (s.stage, s.percent)) =
      some ("download", 25) :=
  C5_notification_skipped_mutation_commits workerEnv
    (fun _ => Except.ok none) (create_job [] "j" "u") "j" "download" 25
    "msg" "" "" "ref" []
    { job_id := "j", url := "u", stage := "pending" }
    rfl (Or.inl rfl) rfl

/-- One step of the C7 invariant: every API call other than `create` on
the observed job preserves a `true` `is_cancelled` verdict. -/
theorem is_cancelled_applyOp (jobs : Registry) (job_id : String) (op : Op)
    (hc : is_cancelled jobs job_id = true)
    (hop : op.isCreateOf job_id = false) :
    is_cancelled (applyOp jobs op) job_id = true := by
  have hread : ∀ job, lookupJob jobs job_id = some job →
      job.cancelled = true := by
    intro job hjob
    unfold is_cancelled at hc
    rw [hjob] at hc
    exact hc
  cases op with
  | create id url =>
      have hne : id ≠ job_id := by
        simpa [Op.isCreateOf] using hop
      unfold applyOp create_job
      exact is_cancelled_set jobs job_id id _ hc (fun h => absurd h hne)
  | update id st p m sp e =>
      cases hl : lookupJob jobs id with
      | none => simpa [applyOp, update_job_status, hl] using hc
      | some job =>
          simp only [applyOp, update_job_status, hl]
          exact is_cancelled_set jobs job_id id _ hc
            (fun h => hread job (h ▸ hl))
  | setMeta id m =>
      cases hl : lookupJob jobs id with
      | none => simpa [applyOp, set_job_metadata, hl] using hc
      | some job =>
          simp only [applyOp, set_job_metadata, hl]
          exact is_cancelled_set jobs job_id id _ hc
            (fun h => hread job (h ▸ hl))
  | complete id u m =>
      cases hl : lookupJob jobs id with
      | none => simpa [applyOp, complete_job, hl] using hc
      | some job =>
          simp only [applyOp, complete_job, hl]
          exact is_cancelled_set jobs job_id id _ hc
            (fun h => hread job (h ▸ hl))
  | cancel id =>
      cases hl : lookupJob jobs id with
      | none => simpa [applyOp, cancel_job, hl] using hc
      | some job =>
          by_cases ht : job.stage ∈ terminalStages
          · simpa [applyOp, cancel_job, hl, ht] using hc
          · simp only [applyOp, cancel_job, hl, if_neg ht]
            exact is_cancelled_set jobs job_id id _ hc (fun _ => rfl)
  | setTask id t =>
      cases hl : lookupJob jobs id with
      | none => simpa [applyOp, set_job_task, hl] using hc
      | some job =>
          simp only [applyOp, set_job_task, hl]
          exact is_cancelled_set jobs job_id id _ hc
            (fun h => hread job (h ▸ hl))
  | regWs id ws =>
      cases hl : lookupJob jobs id with
      | none => simpa [applyOp, register_websocket, hl] using hc
      | some job =>
          simp only [applyOp, register_websocket, hl]
          exact is_cancelled_set jobs job_id id _ hc
            (fun h => hread job (h ▸ hl))
  | unregWs id ws =>
      cases hl : lookupJob jobs id with
      | none => simpa [applyOp, unregister_websocket, hl] using hc
      | some job =>
          simp only [applyOp, unregister_websocket, hl]
          exact is_cancelled_set jobs job_id id _ hc
            (fun h => hread job (h ▸ hl))
  | cleanup => simp [applyOp, cleanup_all_jobs, is_cancelled, lookupJob]

/-- The C7 invariant lifted to whole traces. -/
theorem is_cancelled_applyOps (jobs : Registry) (job_id : String)
    (ops : List Op) (hc : is_cancelled jobs job_id = true)
    (hops : ∀ op ∈ ops, op.isCreateOf job_id = false) :
    is_cancelled (applyOps jobs ops) job_id = true := by
  induction ops generalizing jobs with
  | nil => exact hc
  | cons op rest ih =>
      exact ih (applyOp jobs op)
        (is_cancelled_applyOp jobs job_id op hc
          (hops op (List.mem_cons_self op rest)))
        (fun o ho => hops o (List.mem_cons_of_mem op ho))

/-- C7: once `cancel_job` has returned `true` for a job, any sequence of
subsequent API calls that does not re-`create` that `job_id` leaves the
`cancelled` flag set, so the stage runners' poll `is_cancelled` keeps
answering `true`. -/
theorem C7_cancel_flag_persists (env : LoopEnv) (jobs : Registry)
    (job_id : String) (ops : List Op)
    (hc : (cancel_job env jobs job_id).1 = true)
    (hops : ∀ op ∈ ops, op.isCreateOf job_id = false) :
    is_cancelled (applyOps (cancel_job env jobs job_id).2.1 ops) job_id =
      true := by
  have hstart : is_cancelled (cancel_job env jobs job_id).2.1 job_id = true := by
    cases hl : lookupJob jobs job_id with
    | none => simp [cancel_job, hl] at hc
    | some j =>
        by_cases ht : j.stage ∈ terminalStages
        · simp [cancel_job, hl, ht] at hc
        · simp [cancel_job, hl, ht, is_cancelled, lookup_set_self]
  exact is_cancelled_applyOps _ job_id ops hstart hops

/-- C7 witness: after cancelling a fresh job, a trace of update,
metadata, completion, repeated cancel, task/websocket operations and a
final cleanup still reports the job as cancelled. -/
theorem C7_cancel_flag_persists_witness :
    (cancel_job workerEnv (create_job [] "j" "u") "j").1 = true ∧
    (∀ op ∈ [Op.update "j" "download" 10 "" "" "",
             Op.setMeta "j" [("k", "v")],
             Op.complete "j" "ref" [],
             Op.cancel "j",
             Op.setTask "j" true,
             Op.regWs "j" 7,
             Op.unregWs "j" 7,
             Op.create "other" "u2",
             Op.cleanup], op.isCreateOf "j" = false) ∧
    is_cancelled (applyOps (cancel_job workerEnv (create_job [] "j" "u") "j").2.1
      [Op.update "j" "download" 10 "" "" "",
       Op.setMeta "j" [("k", "v")],
       Op.complete "j" "ref" [],
       Op.cancel "j",
       Op.setTask "j" true,
       Op.regWs "j" 7,
       Op.unregWs "j" 7,
       Op.create "other" "u2",
       Op.cleanup]) "j" = true :=
  ⟨by decide, by decide,
   C7_cancel_flag_persists workerEnv (create_job [] "j" "u") "j" _
     (by decide) (by decide)⟩

/-- C8 (counterexample): two conjuncts of the claim fail on the code.
The skeleton of `get_job_status` on a job with a stored `s3_key`
performs the presigned-URL refresh while the registry guard is held
(external I/O under the guard), and the notification fan-out's trace
contains a Job-record read that does not occur under the guard (the
guard is not acquired before that field access). -/
theorem C8_counterexample :
    LockEvent.refreshIO ∈ eventsUnderLock (get_job_status_events true) 0 ∧
    LockEvent.fieldRead ∈ notify_websockets_events true 1 ∧
    LockEvent.fieldRead ∉ eventsUnderLock (notify_websockets_events true 1) 0 := by
  decide

/-- C8 (amended): in a notification fan-out trace the unguarded
Job-record read and the per-subscriber websocket sends occur with the
guard not held, and the events executed under the guard are exactly the
refresh-reference (presigned-URL) regeneration inside `get_job_status`
when an `s3_key` is present, and nothing otherwise — so the guard is
held across that external I/O, and is not acquired before the fan-out's
field access. -/
theorem C8_lock_discipline (hasKey : Bool) (n : Nat) :
    eventsUnderLock (notify_websockets_events hasKey n) 0 =
      (if hasKey then [LockEvent.refreshIO] else []) ∧
    LockEvent.wsSend ∉ eventsUnderLock (notify_websockets_events hasKey n) 0 ∧
    LockEvent.fieldRead ∉ eventsUnderLock (notify_websockets_events hasKey n) 0 := by
  have hrep : ∀ m, eventsUnderLock (List.replicate m LockEvent.wsSend) 0 = [] := by
    intro m
    induction m with
    | zero => simp [List.replicate, eventsUnderLock]
    | succ m ih => simp [List.replicate, eventsUnderLock, ih]
  have heq : eventsUnderLock (notify_websockets_events hasKey n) 0 =
      (if hasKey then [LockEvent.refreshIO] else []) := by
    cases hasKey <;>
      simp [notify_websockets_events, get_job_status_events,
            eventsUnderLock, hrep]
  refine ⟨heq, ?_, ?_⟩ <;> rw [heq] <;> cases hasKey <;> simp

end JobManager
